import Mathlib

/-!
# Ava AI chatbot front end: session controller

A shallow embedding of the stateful logic of `frontend/src/components/ChatInterface.js`
and `frontend/src/App.js`.  React state is an explicit record; every handler is a pure
function from the state at the moment the handler (or the continuation of an `async`
handler) runs to the next state.  Clock readings (`Date.now()`, `new Date()`) and the
outcome of network calls are parameters.
-/

namespace ChatInterface

/-! ## Data model -/

/-- The `sender` field of a message: the literals `'user'` and `'assistant'`. -/
inductive Sender where
  | user
  | assistant
  deriving DecidableEq, Repr

/-- The `analysis.intent` object. -/
structure Intent where
  primary : String
  confidence : Rat
  deriving DecidableEq, Repr

/-- The `analysis.sentiment` object; `confidence` may be missing. -/
structure Sentiment where
  sentiment : String
  confidence : Option Rat
  deriving DecidableEq, Repr

/-- One element of `analysis.entities`. -/
structure Entity where
  text : String
  label : String
  deriving DecidableEq, Repr

/-- One element of `analysis.keywords`. -/
structure Keyword where
  word : String
  deriving DecidableEq, Repr

/-- The `analysis.text_stats` object. -/
structure TextStats where
  word_count : Nat
  character_count : Nat
  sentence_count : Nat
  deriving DecidableEq, Repr

/-- The analysis payload of `response.data.analysis`; every sub-field may be missing. -/
structure Analysis where
  intent : Option Intent
  sentiment : Option Sentiment
  entities : Option (List Entity)
  keywords : Option (List Keyword)
  text_stats : Option TextStats
  deriving DecidableEq, Repr

/-- A message object of the `messages` array.  `analysis := none` is JavaScript `null`;
`processingTime := none` and `isError := none` mean that the key is missing (or
`undefined`).  `id` is `1`, `Date.now()` or `Date.now() + 1`; `timestamp` is the
reading of `new Date()` in milliseconds. -/
structure Message where
  id : Nat
  text : String
  sender : Sender
  timestamp : Nat
  analysis : Option Analysis
  processingTime : Option Rat
  isError : Option Bool
  deriving DecidableEq, Repr

/-- The `modelStatus` state object. -/
structure ModelStatus where
  spacy : Bool
  transformers : Bool
  nltk : Bool
  deriving DecidableEq, Repr

/-- The React state of the `ChatInterface` component (the six `useState` cells). -/
structure State where
  messages : List Message
  inputMessage : String
  isTyping : Bool
  isConnected : Bool
  modelStatus : ModelStatus
  error : Option String
  deriving DecidableEq, Repr

/-- The body of a successful `POST /api/chat` response (`response.data`). -/
structure ChatResponse where
  response : String
  analysis : Option Analysis
  processing_time : Option Rat
  deriving DecidableEq, Repr

/-- The `response` object of a rejected axios call, as far as the handler reads it. -/
structure ErrorResponse where
  status : Nat
  deriving DecidableEq, Repr

/-- The value caught by `catch (error)` in `handleSendMessage`, as far as the handler
reads it: `error.response` (missing when no HTTP response arrived) and `error.code`. -/
structure SendError where
  response : Option ErrorResponse
  code : Option String
  deriving DecidableEq, Repr

/-! ## `String.prototype.trim` -/

/-- The code points `trim` strips: ECMAScript WhiteSpace and LineTerminator. -/
def isWhiteSpaceOrLineTerminator (c : Char) : Bool :=
  let n := c.toNat
  n == 0x09 || n == 0x0A || n == 0x0B || n == 0x0C || n == 0x0D || n == 0x20 ||
  n == 0xA0 || n == 0x1680 || (0x2000 ≤ n && n ≤ 0x200A) || n == 0x2028 ||
  n == 0x2029 || n == 0x202F || n == 0x205F || n == 0x3000 || n == 0xFEFF

/-- The method `inputMessage.trim()`: white space removed from both ends. -/
def trim (s : String) : String :=
  ⟨((s.data.dropWhile isWhiteSpaceOrLineTerminator).reverse.dropWhile
      isWhiteSpaceOrLineTerminator).reverse⟩

/-! ## Initial state (`useState` initialisers, lines 7-24) -/

/-- The welcome message the `messages` state is initialised with (lines 8-14). -/
def initialWelcome (now : Nat) : Message :=
  { id := 1
    text := "🚀 Hello! I'm Claude, your AI assistant powered by advanced NLP models. I can help you with questions, text analysis, and much more. How can I assist you today?"
    sender := Sender.assistant
    timestamp := now
    analysis := none
    processingTime := none
    isError := none }

/-- The state of a freshly mounted component; `now` is the reading of `new Date()`. -/
def initialState (now : Nat) : State :=
  { messages := [initialWelcome now]
    inputMessage := ""
    isTyping := false
    isConnected := false
    modelStatus := { spacy := false, transformers := false, nltk := false }
    error := none }

/-! ## `handleSendMessage` (lines 70-131) -/

/-- The synchronous part of `handleSendMessage` (lines 70-84), up to the first `await`.
Returns the next state and, when the send is accepted, the body `message` of the
`POST /api/chat` request that the suspended handler issues after its 500 ms delay;
`none` means the handler returned at line 71 and no request will be issued.
`now` is the reading of `Date.now()` / `new Date()`. -/
def handleSendMessage (s : State) (now : Nat) : State × Option String :=
  if trim s.inputMessage = "" ∨ s.isTyping = true then (s, none)
  else
    let userMessage : Message :=
      { id := now
        text := s.inputMessage
        sender := Sender.user
        timestamp := now
        analysis := none
        processingTime := none
        isError := none }
    ({ s with
        messages := s.messages ++ [userMessage]
        inputMessage := ""
        isTyping := true
        error := none },
     some s.inputMessage)

/-- The `try` continuation after `axios.post` fulfils (lines 94-103) followed by the
`finally` block (line 129).  `s` is the state when the continuation runs: `setMessages`
is given an updater function, so it appends to the log of that moment. -/
def handleSendMessage_fulfilled (s : State) (response : ChatResponse) (now : Nat) : State :=
  let aiMessage : Message :=
    { id := now + 1
      text := response.response
      sender := Sender.assistant
      timestamp := now
      analysis := response.analysis
      processingTime := response.processing_time
      isError := none }
  { s with messages := s.messages ++ [aiMessage], isTyping := false }

/-- The fixed apology the error text starts with (line 107). -/
def apologyPrefix : String :=
  "I apologize, but I'm having trouble processing your message right now. "

/-- The suffix appended at line 110. -/
def serverErrorSuffix : String :=
  "There seems to be a server issue. Please try again in a moment."

/-- The suffix appended at line 112. -/
def networkErrorSuffix : String :=
  "Please check your internet connection and try again."

/-- The suffix appended at line 114. -/
def unknownSuffix : String :=
  "Please try again or rephrase your question."

/-- The local `errorMessage` of the `catch` block once lines 107-115 have run.
`error.response?.status === 500` is the comparison of the optional status with 500. -/
def errorMessage (error : SendError) : String :=
  let errorMessage := apologyPrefix
  if error.response.map ErrorResponse.status = some 500 then
    errorMessage ++ serverErrorSuffix
  else if error.code = some "ECONNABORTED" ∨ error.code = some "NETWORK_ERROR" then
    errorMessage ++ networkErrorSuffix
  else
    errorMessage ++ unknownSuffix

/-- The `catch` continuation (lines 104-127) followed by the `finally` block. -/
def handleSendMessage_rejected (s : State) (error : SendError) (now : Nat) : State :=
  let errorMsg : Message :=
    { id := now + 1
      text := errorMessage error
      sender := Sender.assistant
      timestamp := now
      analysis := none
      processingTime := none
      isError := some true }
  { s with
      messages := s.messages ++ [errorMsg]
      error := some "Message failed to send. Please try again."
      isTyping := false }

/-! ## The controls that call `handleSendMessage` (lines 133-138, 260-276) -/

/-- The `disabled` attribute of the send button (line 275). -/
def sendButtonDisabled (s : State) : Bool :=
  decide (trim s.inputMessage = "") || s.isTyping || !s.isConnected

/-- The `disabled` attribute of the text input (line 268). -/
def inputDisabled (s : State) : Bool :=
  s.isTyping || !s.isConnected

/-- A click on the send button: a disabled button dispatches no `onClick`. -/
def clickSend (s : State) (now : Nat) : State × Option String :=
  if sendButtonDisabled s then (s, none) else handleSendMessage s now

/-- The key Enter (without Shift) in the text input, `handleKeyPress`: a disabled
input receives no key events. -/
def pressEnter (s : State) (now : Nat) : State × Option String :=
  if inputDisabled s then (s, none) else handleSendMessage s now

/-! ## `handleClearChat`, the error banner and the connection checks -/

/-- The message `handleClearChat` resets the log to (lines 141-147). -/
def clearedWelcome (now : Nat) : Message :=
  { id := 1
    text := "🚀 Hello! I'm Claude, your AI assistant. How can I help you today?"
    sender := Sender.assistant
    timestamp := now
    analysis := none
    processingTime := none
    isError := none }

/-- The handler `handleClearChat` (lines 140-152).  The `POST /api/conversation/clear`
it fires is never awaited and its rejection only reaches `console.error`, so neither
outcome of that request touches the state (see `clearConversationSettled`). -/
def handleClearChat (s : State) (now : Nat) : State :=
  { s with messages := [clearedWelcome now], error := none }

/-- What the settlement of the request of line 151 does to the state: nothing, whether
it fulfils (`ok = true`) or rejects (`.catch(console.error)`). -/
def clearConversationSettled (s : State) (_ok : Bool) : State := s

/-- The close button of the error banner (line 226): `setError(null)`. -/
def dismissError (s : State) : State :=
  { s with error := none }

/-- The `try` branch of `checkConnection` (lines 41-43), after `GET /api/health` fulfils. -/
def checkConnection_fulfilled (s : State) : State :=
  { s with isConnected := true, error := none }

/-- The `catch` branch of `checkConnection` (lines 45-46). -/
def checkConnection_rejected (s : State) : State :=
  { s with
      isConnected := false
      error := some "Unable to connect to AI backend. Please check if the server is running." }

/-- The `try` branch of `checkModelStatus` (lines 52-57); `data` is `response.data`. -/
def checkModelStatus_fulfilled (s : State) (data : ModelStatus) : State :=
  { s with
      modelStatus :=
        { spacy := data.spacy, transformers := data.transformers, nltk := data.nltk } }

/-- The `catch` branch of `checkModelStatus` (line 59): only `console.error`. -/
def checkModelStatus_rejected (s : State) : State := s

/-- The synchronous part of `handleRetryConnection` (line 155); the two checks it
starts settle later through the four functions above. -/
def handleRetryConnection (s : State) : State :=
  { s with error := none }

/-- A failed health check of the chat component as a whole: `handleRetryConnection`
followed by the rejection of both requests it started. -/
def retryConnectionFailed (s : State) : State :=
  checkModelStatus_rejected (checkConnection_rejected (handleRetryConnection s))

/-! ## Runs of the chat component -/

/-- What can happen to a mounted `ChatInterface`. -/
inductive Event where
  /-- `onChange` of the text input: `setInputMessage(e.target.value)`. -/
  | change (value : String)
  /-- A click on the send button at clock reading `now`. -/
  | clickSend (now : Nat)
  /-- The key Enter in the text input at clock reading `now`. -/
  | pressEnter (now : Nat)
  /-- The pending `POST /api/chat` fulfils at clock reading `now`. -/
  | fulfilled (response : ChatResponse) (now : Nat)
  /-- The pending `POST /api/chat` (or the `try` block) throws at clock reading `now`. -/
  | rejected (error : SendError) (now : Nat)
  /-- A click on the clear button at clock reading `now`. -/
  | clearChat (now : Nat)
  /-- The request of `handleClearChat` settles. -/
  | clearSettled (ok : Bool)
  /-- A click on the close button of the error banner. -/
  | dismissError
  /-- A click on the retry button. -/
  | retryConnection
  /-- A `GET /api/health` of `checkConnection` fulfils. -/
  | connectionFulfilled
  /-- A `GET /api/health` of `checkConnection` rejects. -/
  | connectionRejected
  /-- A `GET /api/models/status` fulfils with `data`. -/
  | modelStatusFulfilled (data : ModelStatus)
  /-- A `GET /api/models/status` rejects. -/
  | modelStatusRejected
  deriving DecidableEq, Repr

/-- The clock reading an event takes, if it reads the clock. -/
def Event.clock : Event → Option Nat
  | Event.clickSend now => some now
  | Event.pressEnter now => some now
  | Event.fulfilled _ now => some now
  | Event.rejected _ now => some now
  | Event.clearChat now => some now
  | _ => none

/-- Whether the event is the settlement of a pending `POST /api/chat`. -/
def Event.isSettle : Event → Bool
  | Event.fulfilled _ _ => true
  | Event.rejected _ _ => true
  | _ => false

/-- Whether the event is a click on the clear button. -/
def Event.isClear : Event → Bool
  | Event.clearChat _ => true
  | _ => false

/-- One event applied to the state of a mounted component.  A disabled input takes no
`onChange`; a suspended `handleSendMessage` exists exactly while `isTyping` is set (it is
set when a send is accepted, reset in `finally`, and blocks every other send), so a
settlement is possible only then.  `App` unmounting the component is not an event of
this function: it ends the life of the instance, see `stepInstance`. -/
def step (s : State) : Event → State
  | Event.change value => if inputDisabled s then s else { s with inputMessage := value }
  | Event.clickSend now => (clickSend s now).1
  | Event.pressEnter now => (pressEnter s now).1
  | Event.fulfilled response now =>
      if s.isTyping then handleSendMessage_fulfilled s response now else s
  | Event.rejected error now =>
      if s.isTyping then handleSendMessage_rejected s error now else s
  | Event.clearChat now => handleClearChat s now
  | Event.clearSettled ok => clearConversationSettled s ok
  | Event.dismissError => dismissError s
  | Event.retryConnection => handleRetryConnection s
  | Event.connectionFulfilled => checkConnection_fulfilled s
  | Event.connectionRejected => checkConnection_rejected s
  | Event.modelStatusFulfilled data => checkModelStatus_fulfilled s data
  | Event.modelStatusRejected => checkModelStatus_rejected s

/-- A sequence of events applied in order. -/
def run (s : State) (es : List Event) : State :=
  es.foldl step s

/-- The clock readings of the events of a run, each at least `gap` milliseconds after
the previous reading (`last` is the reading before the run). -/
def clockSpaced (gap : Nat) : Nat → List Event → Prop
  | _, [] => True
  | last, e :: es =>
      match e.clock with
      | none => clockSpaced gap last es
      | some now => last + gap ≤ now ∧ clockSpaced gap now es

/-- The ids of the messages of the log, in order (the React keys of line 244). -/
def messageIds (s : State) : List Nat :=
  s.messages.map Message.id

/-- Invariant of the ids of the log: pairwise distinct and none above `bound`. -/
def idsBounded (s : State) (bound : Nat) : Prop :=
  (messageIds s).Nodup ∧ ∀ i ∈ messageIds s, i ≤ bound

/-! ## The life of one component instance -/

/-- What can happen to one instance of the component: an event while it is mounted, or
`App` unmounting it.  `App.js` renders `ChatInterface` only while `isMinimized` is unset
(line 80) and `isConnected` is set (lines 151-156), so a click on minimize or a failed
health check of `App` unmounts the instance. -/
inductive InstanceEvent where
  /-- An event of the mounted component. -/
  | event (e : Event)
  /-- The component is unmounted by `App`. -/
  | unmount
  deriving DecidableEq, Repr

/-- Whether the instance event is the settlement of a pending `POST /api/chat`. -/
def InstanceEvent.isSettle : InstanceEvent → Bool
  | InstanceEvent.event e => e.isSettle
  | InstanceEvent.unmount => false

/-- Whether the instance event is a click on the clear button. -/
def InstanceEvent.isClear : InstanceEvent → Bool
  | InstanceEvent.event e => e.isClear
  | InstanceEvent.unmount => false

/-- Whether the instance event is the unmount. -/
def InstanceEvent.isUnmount : InstanceEvent → Bool
  | InstanceEvent.event _ => false
  | InstanceEvent.unmount => true

/-- One instance event applied to the state of an instance; `none` is an instance that
has been unmounted.  React discards the state of an unmounted instance and ignores the
`setMessages`, `setError` and `setIsTyping` calls that a still suspended
`handleSendMessage` makes afterwards; a later mount is a new instance with the state
`initialState`, not this one. -/
def stepInstance (s : Option State) : InstanceEvent → Option State
  | InstanceEvent.event e => s.map (fun mounted => step mounted e)
  | InstanceEvent.unmount => none

/-- A sequence of instance events applied in order. -/
def runInstance (s : Option State) (es : List InstanceEvent) : Option State :=
  es.foldl stepInstance s

end ChatInterface

namespace App

/-! ## `App.js`: the health poll -/

/-- The `models_loaded` object of the health response. -/
structure ModelsLoaded where
  spacy : Bool
  transformers : Bool
  nltk : Bool
  deriving DecidableEq, Repr

/-- The body of a `GET /api/health` response (`response.data`). -/
structure Health where
  status : String
  models_loaded : Option ModelsLoaded
  deriving DecidableEq, Repr

/-- The React state of the `App` component (lines 8-12). -/
structure State where
  isConnected : Bool
  darkMode : Bool
  isMinimized : Bool
  isLoading : Bool
  backendHealth : Option Health
  deriving DecidableEq, Repr

/-- The `useState` initialisers of lines 8-12. -/
def initialState : State :=
  { isConnected := false
    darkMode := true
    isMinimized := false
    isLoading := true
    backendHealth := none }

/-- The `try` and `finally` blocks of `checkBackendHealth` (lines 25-26, 32). -/
def checkBackendHealth_fulfilled (s : State) (data : Health) : State :=
  { s with backendHealth := some data, isConnected := true, isLoading := false }

/-- The `catch` and `finally` blocks of `checkBackendHealth` (lines 28-32). -/
def checkBackendHealth_rejected (s : State) : State :=
  { s with isConnected := false, backendHealth := none, isLoading := false }

/-- Whether the footer shows a model indicator with class `loaded` (lines 188-198):
`backendHealth && backendHealth.models_loaded?.flag`. -/
def modelIndicatorLoaded (s : State) (flag : ModelsLoaded → Bool) : Bool :=
  match s.backendHealth with
  | none => false
  | some health =>
      match health.models_loaded with
      | none => false
      | some models => flag models

/-- The component together with the number of `GET /api/health` requests that
`checkBackendHealth` has issued and that have not settled yet. -/
structure Monitor where
  app : State
  outstanding : Nat
  deriving DecidableEq, Repr

/-- The synchronous part of `checkBackendHealth` (lines 22-24): the request is issued
unconditionally. -/
def checkBackendHealth (m : Monitor) : Monitor :=
  { m with outstanding := m.outstanding + 1 }

/-- The mount effect (lines 15-17): one immediate check; the interval is then armed. -/
def mount : Monitor :=
  checkBackendHealth { app := initialState, outstanding := 0 }

/-- Whether the retry button is on screen (lines 46, 80, 151-174).  The 0.3 s exit
animation of `AnimatePresence`, during which a button that is being removed can still
be clicked, is not modelled: the button counts as gone once `isMinimized` is set. -/
def retryButtonRendered (s : State) : Bool :=
  !s.isLoading && !s.isMinimized && !s.isConnected

/-- What can happen to the mounted `App`. -/
inductive Event where
  /-- The interval of line 17 fires. -/
  | tick
  /-- A click on the retry button (line 169). -/
  | clickRetry
  /-- A click on the minimize or restore button. -/
  | toggleMinimize
  /-- An outstanding health request fulfils with `data`. -/
  | fulfilled (data : Health)
  /-- An outstanding health request rejects (error or the 5000 ms timeout). -/
  | rejected
  deriving DecidableEq, Repr

/-- One event applied to the monitor. -/
def step (m : Monitor) : Event → Monitor
  | Event.tick => checkBackendHealth m
  | Event.clickRetry => if retryButtonRendered m.app then checkBackendHealth m else m
  | Event.toggleMinimize => { m with app := { m.app with isMinimized := !m.app.isMinimized } }
  | Event.fulfilled data =>
      if m.outstanding = 0 then m
      else { app := checkBackendHealth_fulfilled m.app data, outstanding := m.outstanding - 1 }
  | Event.rejected =>
      if m.outstanding = 0 then m
      else { app := checkBackendHealth_rejected m.app, outstanding := m.outstanding - 1 }

/-- A sequence of events applied in order. -/
def run (m : Monitor) (es : List Event) : Monitor :=
  es.foldl step m

end App

namespace MessageBubble

open ChatInterface

/-! ## `MessageBubble.js`: the analysis details -/

/-- The text children of a rendered `<span>`, in order (styles are left out). -/
structure Span where
  children : List String
  deriving DecidableEq, Repr

/-- A child of a rendered line: a bare text node or a `<span>`. -/
inductive Child where
  | text (value : String)
  | span (content : Span)
  deriving DecidableEq, Repr

/-- A rendered section of chips: the heading `<div>` and the chips of the flex `<div>`. -/
structure ChipSection where
  heading : String
  chips : List Span
  deriving DecidableEq, Repr

/-- The children of the grid `<div>` that `renderAnalysis` returns (lines 55-142): each
line is the list of children of its `<div>`, `none` where the expression renders nothing. -/
structure AnalysisBlock where
  intent : Option (List Child)
  sentiment : Option (List Child)
  entities : Option ChipSection
  keywords : Option ChipSection
  text_stats : Option (List Child)
  deriving DecidableEq, Repr

/-- The text a `<span>` shows: its text children concatenated. -/
def Span.textContent (s : Span) : String :=
  String.join s.children

/-- The text a child shows. -/
def Child.textContent : Child → String
  | Child.text value => value
  | Child.span content => content.textContent

/-- The function `getSentimentEmoji` (lines 17-24). -/
def getSentimentEmoji (sentiment : String) : String :=
  match sentiment with
  | "positive" => "😊"
  | "negative" => "😔"
  | "neutral" => "😐"
  | _ => "🤖"

/-- The function `getIntentEmoji` (lines 26-38). -/
def getIntentEmoji (intent : String) : String :=
  match intent with
  | "greeting" => "👋"
  | "question" => "❓"
  | "request_help" => "🆘"
  | "weather" => "🌤️"
  | "time_date" => "⏰"
  | "goodbye" => "👋"
  | "compliment" => "👍"
  | "complaint" => "😞"
  | _ => "💬"

/-- The function `Math.round` on a number modelled as a rational: the nearest integer,
a tie going up.  The code rounds the IEEE double product `confidence * 100`, the model
the exact product; the two agree wherever the double product is exact (as at 0 and
1/2) and can differ by one at a tie (0.285 gives 28 in the code, 29 here). -/
def mathRound (x : Rat) : Int :=
  Rat.floor (x + 1 / 2)

/-- The span `({Math.round(confidence * 100)}%)` of lines 68-70 and 90-92. -/
def percentSpan (confidence : Rat) : Span :=
  { children := ["(", toString (mathRound (confidence * 100)), "%)"] }

/-- The intent line (lines 57-71). -/
def intentLine (intent : Intent) : List Child :=
  [ Child.span { children := [getIntentEmoji intent.primary] },
    Child.span { children := ["Intent:"] },
    Child.span { children := [intent.primary] },
    Child.span (percentSpan intent.confidence) ]

/-- The child that `{sentiment.confidence && (<span>...</span>)}` renders (lines 89-93).
`&&` yields its left operand when that is falsy: a missing confidence renders nothing,
the number 0 is rendered by React as the text "0", any other number yields the span. -/
def sentimentConfidence (confidence : Option Rat) : List Child :=
  match confidence with
  | none => []
  | some c => if c = 0 then [Child.text "0"] else [Child.span (percentSpan c)]

/-- The sentiment line (lines 75-94). -/
def sentimentLine (sentiment : Sentiment) : List Child :=
  [ Child.span { children := [getSentimentEmoji sentiment.sentiment] },
    Child.span { children := ["Sentiment:"] },
    Child.span { children := [sentiment.sentiment] } ] ++
  sentimentConfidence sentiment.confidence

/-- The chip of one entity (lines 102-110): `{entity.text} ({entity.label})`. -/
def entityChip (entity : Entity) : Span :=
  { children := [entity.text, " (", entity.label, ")"] }

/-- The chip of one keyword (lines 121-129): `{keyword.word}`. -/
def keywordChip (keyword : Keyword) : Span :=
  { children := [keyword.word] }

/-- The entity section (lines 97-114): `entities && entities.length > 0 && (...)` with
`entities.slice(0, 3).map(...)`. -/
def entitySection (entities : Option (List Entity)) : Option ChipSection :=
  match entities with
  | none => none
  | some es =>
      if es.length > 0 then
        some { heading := "🏷️ Entities:", chips := (es.take 3).map entityChip }
      else none

/-- The keyword section (lines 116-133): `keywords && keywords.length > 0 && (...)` with
`keywords.slice(0, 4).map(...)`. -/
def keywordSection (keywords : Option (List Keyword)) : Option ChipSection :=
  match keywords with
  | none => none
  | some ks =>
      if ks.length > 0 then
        some { heading := "🔑 Keywords:", chips := (ks.take 4).map keywordChip }
      else none

/-- The statistics line (lines 136-140). -/
def statsLine (stats : TextStats) : List Child :=
  [ Child.span { children := ["📊 ", toString stats.word_count, " words"] },
    Child.span { children := ["📝 ", toString stats.character_count, " chars"] },
    Child.span { children := ["📄 ", toString stats.sentence_count, " sentences"] } ]

/-- The function `renderAnalysis` (lines 40-145) for the props `message` and the state
`showDetails`; `none` is the `null` of line 41. -/
def renderAnalysis (message : Message) (showDetails : Bool) : Option AnalysisBlock :=
  match message.analysis with
  | none => none
  | some analysis =>
      if !showDetails then none
      else
        some
          { intent := analysis.intent.map intentLine
            sentiment := analysis.sentiment.map sentimentLine
            entities := entitySection analysis.entities
            keywords := keywordSection analysis.keywords
            text_stats := analysis.text_stats.map statsLine }

/-- The texts of the chips of a section; none when the section is not rendered. -/
def chipTexts (chipSection : Option ChipSection) : List String :=
  match chipSection with
  | none => []
  | some rendered => rendered.chips.map Span.textContent

end MessageBubble

namespace ChatInterface

/-! ## Shared lemmas -/

theorem handleSendMessage_of_guard (s : State) (now : Nat)
    (h : trim s.inputMessage = "" ∨ s.isTyping = true) :
    handleSendMessage s now = (s, none) := by
  unfold handleSendMessage
  rw [if_pos h]

theorem handleSendMessage_of_accept (s : State) (now : Nat)
    (ht : trim s.inputMessage ≠ "") (hy : s.isTyping = false) :
    handleSendMessage s now =
      ({ s with
          messages := s.messages ++
            [{ id := now, text := s.inputMessage, sender := Sender.user, timestamp := now,
               analysis := none, processingTime := none, isError := none }]
          inputMessage := ""
          isTyping := true
          error := none },
       some s.inputMessage) := by
  unfold handleSendMessage
  rw [if_neg]
  rintro (h | h)
  · exact ht h
  · rw [hy] at h; exact Bool.false_ne_true h

theorem append_left_cancel_string (p a b : String) (h : p ++ a = p ++ b) : a = b := by
  have hd := congrArg String.data h
  simp only [String.data_append] at hd
  exact String.ext (List.append_cancel_left hd)

theorem serverErrorSuffix_ne_networkErrorSuffix : serverErrorSuffix ≠ networkErrorSuffix := by
  decide

theorem serverErrorSuffix_ne_unknownSuffix : serverErrorSuffix ≠ unknownSuffix := by
  decide

theorem networkErrorSuffix_ne_unknownSuffix : networkErrorSuffix ≠ unknownSuffix := by
  decide

/-! ## C1: the send guards -/

/-- C1: for every state and every input text, when `isTyping` is set, `isConnected` is
unset or the trimmed input is empty, a send by either caller of `handleSendMessage`
(the send button, the Enter key of the input) leaves the whole state, the log included,
unchanged and issues no request.  The last conjunct records how the guard is split:
the handler itself returns at line 71 for `isTyping` and for an empty trimmed input, and
the `disabled` attributes of lines 268 and 275 keep every caller away from it while
`isConnected` is unset. -/
theorem send_noop_when_guarded (s : State) (now : Nat)
    (h : s.isTyping = true ∨ s.isConnected = false ∨ trim s.inputMessage = "") :
    clickSend s now = (s, none) ∧ pressEnter s now = (s, none) ∧
    (handleSendMessage s now = (s, none) ∨
      (s.isConnected = false ∧ s.isTyping = false ∧ trim s.inputMessage ≠ "")) := by
  refine ⟨?_, ?_, ?_⟩
  · unfold clickSend sendButtonDisabled
    split
    · rfl
    · rename_i hd
      rcases h with h | h | h
      · exact handleSendMessage_of_guard s now (Or.inr h)
      · simp [h] at hd
      · exact handleSendMessage_of_guard s now (Or.inl h)
  · unfold pressEnter inputDisabled
    split
    · rfl
    · rename_i hd
      rcases h with h | h | h
      · exact handleSendMessage_of_guard s now (Or.inr h)
      · simp [h] at hd
      · exact handleSendMessage_of_guard s now (Or.inl h)
  · by_cases hy : s.isTyping = true
    · exact Or.inl (handleSendMessage_of_guard s now (Or.inr hy))
    · by_cases ht : trim s.inputMessage = ""
      · exact Or.inl (handleSendMessage_of_guard s now (Or.inl ht))
      · rcases h with h | h | h
        · exact absurd h hy
        · exact Or.inr ⟨h, by simpa using hy, ht⟩
        · exact absurd h ht

/-- C1 witness: a disconnected component with the input "  " (blank after trimming). -/
theorem send_noop_when_guarded_witness :
    clickSend { initialState 0 with inputMessage := "  " } 5 =
      ({ initialState 0 with inputMessage := "  " }, none) ∧
    pressEnter { initialState 0 with inputMessage := "  " } 5 =
      ({ initialState 0 with inputMessage := "  " }, none) ∧
    (handleSendMessage { initialState 0 with inputMessage := "  " } 5 =
        ({ initialState 0 with inputMessage := "  " }, none) ∨
      (({ initialState 0 with inputMessage := "  " } : State).isConnected = false ∧
       ({ initialState 0 with inputMessage := "  " } : State).isTyping = false ∧
       trim ({ initialState 0 with inputMessage := "  " } : State).inputMessage ≠ "")) :=
  send_noop_when_guarded { initialState 0 with inputMessage := "  " } 5
    (Or.inr (Or.inl rfl))

/-! ## C2, C3, C4: the error text of the `catch` branch -/

theorem handleSendMessage_rejected_messages (s : State) (error : SendError) (now : Nat) :
    (handleSendMessage_rejected s error now).messages =
      s.messages ++
        [{ id := now + 1, text := errorMessage error, sender := Sender.assistant,
           timestamp := now, analysis := none, processingTime := none,
           isError := some true }] := rfl

theorem errorMessage_of_status_500 (error : SendError)
    (h : error.response.map ErrorResponse.status = some 500) :
    errorMessage error = apologyPrefix ++ serverErrorSuffix := by
  unfold errorMessage
  simp only [h, if_true]

theorem errorMessage_of_code (error : SendError)
    (hs : error.response.map ErrorResponse.status ≠ some 500)
    (hc : error.code = some "ECONNABORTED" ∨ error.code = some "NETWORK_ERROR") :
    errorMessage error = apologyPrefix ++ networkErrorSuffix := by
  unfold errorMessage
  rw [if_neg hs, if_pos hc]

theorem errorMessage_of_other (error : SendError)
    (hs : error.response.map ErrorResponse.status ≠ some 500)
    (hc : ¬ (error.code = some "ECONNABORTED" ∨ error.code = some "NETWORK_ERROR")) :
    errorMessage error = apologyPrefix ++ unknownSuffix := by
  unfold errorMessage
  rw [if_neg hs, if_neg hc]

/-- C2 (as stated, refuted): a rejection with HTTP status 503 and no error code gets the
Unknown suffix, not the ServerError suffix. -/
theorem status_503_gets_unknownSuffix :
    ((handleSendMessage_rejected (initialState 0)
        { response := some { status := 503 }, code := none } 7).messages.getLast?.map
        Message.text = some (apologyPrefix ++ unknownSuffix)) ∧
    apologyPrefix ++ unknownSuffix ≠ apologyPrefix ++ serverErrorSuffix := by
  refine ⟨rfl, fun h => ?_⟩
  exact serverErrorSuffix_ne_unknownSuffix (append_left_cancel_string _ _ _ h).symm

/-- C2 (amended): for every failed `sendMessage` call whose error carries the HTTP status
500 exactly, the synthesized assistant message, appended at the end of the log, has the
text: apology prefix followed by the ServerError suffix. -/
theorem server_error_text_of_status_500 (s : State) (error : SendError) (now : Nat)
    (h : error.response.map ErrorResponse.status = some 500) :
    (handleSendMessage_rejected s error now).messages =
      s.messages ++
        [{ id := now + 1, text := apologyPrefix ++ serverErrorSuffix,
           sender := Sender.assistant, timestamp := now, analysis := none,
           processingTime := none, isError := some true }] := by
  rw [handleSendMessage_rejected_messages, errorMessage_of_status_500 error h]

/-- C2 witness: status 500 after one accepted send. -/
theorem server_error_text_of_status_500_witness :
    (handleSendMessage_rejected (initialState 0)
        { response := some { status := 500 }, code := none } 7).messages =
      (initialState 0).messages ++
        [{ id := 7 + 1, text := apologyPrefix ++ serverErrorSuffix,
           sender := Sender.assistant, timestamp := 7, analysis := none,
           processingTime := none, isError := some true }] :=
  server_error_text_of_status_500 (initialState 0)
    { response := some { status := 500 }, code := none } 7 rfl

/-- C3 (as stated, refuted): a connectivity failure as axios reports it, with no HTTP
response and the code `ERR_NETWORK`, gets the Unknown suffix, not the NetworkError suffix;
so does a failure with no response and no code at all. -/
theorem connectivity_failure_gets_unknownSuffix :
    ((handleSendMessage_rejected (initialState 0)
        { response := none, code := some "ERR_NETWORK" } 7).messages.getLast?.map
        Message.text =
      some (apologyPrefix ++ "Please try again or rephrase your question.")) ∧
    ((handleSendMessage_rejected (initialState 0)
        { response := none, code := none } 7).messages.getLast?.map Message.text =
      some (apologyPrefix ++ "Please try again or rephrase your question.")) ∧
    apologyPrefix ++ "Please try again or rephrase your question." ≠
      apologyPrefix ++ "Please check your internet connection and try again." := by
  refine ⟨rfl, rfl, fun h => ?_⟩
  exact networkErrorSuffix_ne_unknownSuffix (append_left_cancel_string _ _ _ h).symm

/-- C3 (amended): for every failed `sendMessage` call without an HTTP response, the
synthesized assistant message, appended at the end of the log, has the text: apology
prefix followed by the NetworkError suffix when the error code is `ECONNABORTED` (the
axios timeout) or the literal `NETWORK_ERROR`, and apology prefix followed by the Unknown
suffix for every other code and for a missing code. -/
theorem no_response_error_text (s : State) (error : SendError) (now : Nat)
    (hr : error.response = none) :
    (handleSendMessage_rejected s error now).messages =
      s.messages ++
        [{ id := now + 1,
           text := apologyPrefix ++
             (if error.code = some "ECONNABORTED" ∨ error.code = some "NETWORK_ERROR" then
                "Please check your internet connection and try again."
              else "Please try again or rephrase your question."),
           sender := Sender.assistant, timestamp := now, analysis := none,
           processingTime := none, isError := some true }] := by
  have hs : error.response.map ErrorResponse.status ≠ some 500 := by simp [hr]
  rw [handleSendMessage_rejected_messages]
  by_cases hc : error.code = some "ECONNABORTED" ∨ error.code = some "NETWORK_ERROR"
  · rw [errorMessage_of_code error hs hc, if_pos hc]
    rfl
  · rw [errorMessage_of_other error hs hc, if_neg hc]
    rfl

/-- C3 witness: a timeout (`ECONNABORTED`, no response). -/
theorem no_response_error_text_witness :
    (handleSendMessage_rejected (initialState 0)
        { response := none, code := some "ECONNABORTED" } 7).messages =
      (initialState 0).messages ++
        [{ id := 7 + 1,
           text := apologyPrefix ++ "Please check your internet connection and try again.",
           sender := Sender.assistant, timestamp := 7, analysis := none,
           processingTime := none, isError := some true }] :=
  no_response_error_text (initialState 0) { response := none, code := some "ECONNABORTED" } 7
    rfl

/-- The three classes of the `catch` branch, in terms of the suffix constants. -/
theorem errorMessage_classes (error : SendError) :
    (∃! suffix, suffix ∈ [serverErrorSuffix, networkErrorSuffix, unknownSuffix] ∧
        errorMessage error = apologyPrefix ++ suffix) ∧
    ((∀ r, error.response = some r → ¬ (500 ≤ r.status ∧ r.status ≤ 599)) →
      error.code ≠ some "ECONNABORTED" → error.code ≠ some "NETWORK_ERROR" →
      errorMessage error = apologyPrefix ++ unknownSuffix) := by
  refine ⟨?_, ?_⟩
  · have hex : ∃ suffix, suffix ∈ [serverErrorSuffix, networkErrorSuffix, unknownSuffix] ∧
        errorMessage error = apologyPrefix ++ suffix := by
      by_cases hs : error.response.map ErrorResponse.status = some 500
      · exact ⟨serverErrorSuffix, by simp, errorMessage_of_status_500 error hs⟩
      · by_cases hc : error.code = some "ECONNABORTED" ∨ error.code = some "NETWORK_ERROR"
        · exact ⟨networkErrorSuffix, by simp, errorMessage_of_code error hs hc⟩
        · exact ⟨unknownSuffix, by simp, errorMessage_of_other error hs hc⟩
    obtain ⟨suffix, hmem, heq⟩ := hex
    refine ⟨suffix, ⟨hmem, heq⟩, ?_⟩
    rintro other ⟨_, hother⟩
    rw [heq] at hother
    exact (append_left_cancel_string _ _ _ hother).symm
  · intro hs h1 h2
    apply errorMessage_of_other
    · intro h500
      cases hr : error.response with
      | none => rw [hr] at h500; simp at h500
      | some r =>
        rw [hr] at h500
        simp only [Option.map_some', Option.some.injEq] at h500
        exact hs r hr ⟨by omega, by omega⟩
    · rintro (h | h)
      · exact h1 h
      · exact h2 h

/-- C4: for every error value the catch branch can be given (any or no HTTP status, any
or no error code) the text of the synthesized message is the apology prefix followed by
exactly one of the three suffixes; every error that is neither HTTP 5xx (its status is
missing or outside 500..599) nor a timeout or connectivity failure (its code is neither
`ECONNABORTED` nor `NETWORK_ERROR`, the two codes by which line 111 recognises one) gets
the Unknown suffix; in particular every response with a 4xx status does, a rejection
that carries a response not being one that was aborted for lack of a response. -/
theorem errorMessage_total_and_unknown (s : State) (error : SendError) (now : Nat) :
    ((handleSendMessage_rejected s error now).messages.getLast?.map Message.text =
        some (errorMessage error)) ∧
    (∃! suffix,
        suffix ∈ ["There seems to be a server issue. Please try again in a moment.",
                  "Please check your internet connection and try again.",
                  "Please try again or rephrase your question."] ∧
        errorMessage error = apologyPrefix ++ suffix) ∧
    ((∀ r, error.response = some r → ¬ (500 ≤ r.status ∧ r.status ≤ 599)) →
      error.code ≠ some "ECONNABORTED" → error.code ≠ some "NETWORK_ERROR" →
      errorMessage error = apologyPrefix ++ "Please try again or rephrase your question.") ∧
    (∀ r, error.response = some r → 400 ≤ r.status → r.status ≤ 499 →
      error.code ≠ some "ECONNABORTED" → error.code ≠ some "NETWORK_ERROR" →
      errorMessage error = apologyPrefix ++ "Please try again or rephrase your question.") := by
  refine ⟨?_, (errorMessage_classes error).1, (errorMessage_classes error).2, ?_⟩
  · rw [handleSendMessage_rejected_messages]
    simp
  · intro r hr hlo hhi h1 h2
    refine (errorMessage_classes error).2 ?_ h1 h2
    intro r2 hr2
    rw [hr] at hr2
    cases hr2
    omega

/-- C4 witness: HTTP status 404 with the code `ERR_BAD_REQUEST`, and a cancelled request
(no response, code `ERR_CANCELED`), both get the Unknown suffix. -/
theorem errorMessage_total_and_unknown_witness :
    errorMessage { response := some { status := 404 }, code := some "ERR_BAD_REQUEST" } =
      apologyPrefix ++ "Please try again or rephrase your question." ∧
    errorMessage { response := none, code := some "ERR_CANCELED" } =
      apologyPrefix ++ "Please try again or rephrase your question." :=
  ⟨(errorMessage_total_and_unknown (initialState 0)
      { response := some { status := 404 }, code := some "ERR_BAD_REQUEST" } 7).2.2.2
      { status := 404 } rfl (by decide) (by decide) (by decide) (by decide),
   (errorMessage_total_and_unknown (initialState 0)
      { response := none, code := some "ERR_CANCELED" } 7).2.2.1
      (by intro r hr; cases hr) (by decide) (by decide)⟩

/-! ## C5: a send and its settlement -/

theorem clickSend_of_isTyping (s : State) (now : Nat) (h : s.isTyping = true) :
    clickSend s now = (s, none) := by
  unfold clickSend sendButtonDisabled
  simp [h]

theorem pressEnter_of_isTyping (s : State) (now : Nat) (h : s.isTyping = true) :
    pressEnter s now = (s, none) := by
  unfold pressEnter inputDisabled
  simp [h]

/-- While a send is pending, an event other than its settlement keeps `isTyping` set;
it leaves the log alone unless it is a clear, which resets the log to its welcome
message. -/
theorem step_while_pending (s : State) (e : Event) (h : s.isTyping = true)
    (he : e.isSettle = false) :
    (step s e).isTyping = true ∧
    ((e.isClear = false ∧ (step s e).messages = s.messages) ∨
      (∃ t, e = Event.clearChat t ∧ (step s e).messages = [clearedWelcome t])) := by
  cases e with
  | change value =>
      have hd : inputDisabled s = true := by simp [inputDisabled, h]
      simp [step, hd, h, Event.isClear]
  | clickSend now => simp [step, clickSend_of_isTyping s now h, h, Event.isClear]
  | pressEnter now => simp [step, pressEnter_of_isTyping s now h, h, Event.isClear]
  | fulfilled response now => simp [Event.isSettle] at he
  | rejected error now => simp [Event.isSettle] at he
  | clearChat now => exact ⟨h, Or.inr ⟨now, rfl, rfl⟩⟩
  | clearSettled ok => simp [step, clearConversationSettled, h, Event.isClear]
  | dismissError => simp [step, dismissError, h, Event.isClear]
  | retryConnection => simp [step, handleRetryConnection, h, Event.isClear]
  | connectionFulfilled => simp [step, checkConnection_fulfilled, h, Event.isClear]
  | connectionRejected => simp [step, checkConnection_rejected, h, Event.isClear]
  | modelStatusFulfilled data => simp [step, checkModelStatus_fulfilled, h, Event.isClear]
  | modelStatusRejected => simp [step, checkModelStatus_rejected, h, Event.isClear]

theorem runInstance_none (es : List InstanceEvent) : runInstance none es = none := by
  induction es with
  | nil => rfl
  | cons x es ih =>
      have hrun : runInstance none (x :: es) = runInstance (stepInstance none x) es := rfl
      rw [hrun]
      cases x with
      | event e => exact ih
      | unmount => exact ih

/-- The events that interleave between an accepted send and its settlement: either the
instance is unmounted, or it is still waiting, with the log it had or with the welcome
message of a clear. -/
theorem runInstance_while_pending (es : List InstanceEvent) (s : State)
    (h : s.isTyping = true) (hes : ∀ x ∈ es, x.isSettle = false) :
    (es.any InstanceEvent.isUnmount = true ∧ runInstance (some s) es = none) ∨
    (es.any InstanceEvent.isUnmount = false ∧
      ∃ waiting : State, runInstance (some s) es = some waiting ∧ waiting.isTyping = true ∧
        ((es.any InstanceEvent.isClear = false ∧ waiting.messages = s.messages) ∨
          (∃ t, InstanceEvent.event (Event.clearChat t) ∈ es ∧
            waiting.messages = [clearedWelcome t]))) := by
  induction es generalizing s with
  | nil => exact Or.inr ⟨rfl, s, rfl, h, Or.inl ⟨rfl, rfl⟩⟩
  | cons x es ih =>
      cases x with
      | unmount =>
          refine Or.inl ⟨by simp [InstanceEvent.isUnmount], ?_⟩
          exact runInstance_none es
      | event e =>
          have hrun : runInstance (some s) (InstanceEvent.event e :: es) =
              runInstance (some (step s e)) es := rfl
          have hse : e.isSettle = false :=
            hes (InstanceEvent.event e) (List.mem_cons_self _ _)
          have hstep := step_while_pending s e h hse
          have hrest := ih (step s e) hstep.1 (fun x hx => hes x (List.mem_cons_of_mem _ hx))
          rw [hrun]
          rcases hrest with ⟨hu, hnone⟩ | ⟨hu, waiting, hw, hty, hlog⟩
          · exact Or.inl ⟨by simp [List.any_cons, hu], hnone⟩
          · refine Or.inr ⟨by simp [List.any_cons, hu, InstanceEvent.isUnmount], waiting, hw,
              hty, ?_⟩
            rcases hlog with ⟨hc2, hm2⟩ | ⟨t, ht, hm2⟩
            · rcases hstep.2 with ⟨hc, hm⟩ | ⟨t, het, hm⟩
              · exact Or.inl ⟨by simp [List.any_cons, hc2, InstanceEvent.isClear, hc],
                  hm2.trans hm⟩
              · refine Or.inr ⟨t, ?_, hm2.trans hm⟩
                rw [het]
                exact List.mem_cons_self _ _
            · exact Or.inr ⟨t, List.mem_cons_of_mem _ ht, hm2⟩

/-- The settlement of a pending send appends one assistant message, the reply or the
synthesized error message, and resets `isTyping`. -/
theorem step_settle (s : State) (e : Event) (h : s.isTyping = true) (he : e.isSettle = true) :
    (step s e).isTyping = false ∧
    ∃ reply : Message, reply.sender = Sender.assistant ∧
      ((∃ response t, e = Event.fulfilled response t ∧
          reply = { id := t + 1, text := response.response, sender := Sender.assistant,
                    timestamp := t, analysis := response.analysis,
                    processingTime := response.processing_time, isError := none }) ∨
        (∃ error t, e = Event.rejected error t ∧
          reply = { id := t + 1, text := errorMessage error, sender := Sender.assistant,
                    timestamp := t, analysis := none, processingTime := none,
                    isError := some true })) ∧
      (step s e).messages = s.messages ++ [reply] := by
  cases e with
  | fulfilled response now =>
      simp only [step, h, if_true]
      exact ⟨rfl, _, rfl, Or.inl ⟨response, now, rfl, rfl⟩, rfl⟩
  | rejected error now =>
      simp only [step, h, if_true]
      exact ⟨rfl, _, rfl, Or.inr ⟨error, now, rfl, rfl⟩, rfl⟩
  | change value => simp [Event.isSettle] at he
  | clickSend now => simp [Event.isSettle] at he
  | pressEnter now => simp [Event.isSettle] at he
  | clearChat now => simp [Event.isSettle] at he
  | clearSettled ok => simp [Event.isSettle] at he
  | dismissError => simp [Event.isSettle] at he
  | retryConnection => simp [Event.isSettle] at he
  | connectionFulfilled => simp [Event.isSettle] at he
  | connectionRejected => simp [Event.isSettle] at he
  | modelStatusFulfilled data => simp [Event.isSettle] at he
  | modelStatusRejected => simp [Event.isSettle] at he

/-- C5 (as stated, refuted): a clear between an accepted send and its fulfilment leaves
the log at 2 messages, not at the 3 that "2 longer than before the call" requires. -/
theorem clear_between_send_and_reply :
    ({ initialState 0 with isConnected := true, inputMessage := "hi" } : State).messages.length
      = 1 ∧
    (clickSend { initialState 0 with isConnected := true, inputMessage := "hi" } 10).2
      = some "hi" ∧
    (step (run (clickSend { initialState 0 with isConnected := true, inputMessage := "hi" } 10).1
        [Event.clearChat 20])
      (Event.fulfilled { response := "hello", analysis := none, processing_time := none }
        30)).messages.length = 2 := by
  decide

/-- C5 (amended): for every accepted send, whether the gateway call succeeds or fails and
whatever other events interleave before it settles: if the component is still mounted
when the call settles, `isTyping` is false afterwards and one assistant message (the
reply or the synthesized error message) is appended; if no clear interleaved, the log
is the log before the call followed by the user message and that assistant message,
exactly 2 longer; if a clear interleaved, the log is the welcome message of a clear
followed by that assistant message.  If `App` unmounted the component before the call
settles, the instance has no state left and the settlement changes nothing. -/
theorem send_settles (s : State) (now : Nat) (es : List InstanceEvent) (e : Event)
    (ht : trim s.inputMessage ≠ "") (hy : s.isTyping = false)
    (hes : ∀ x ∈ es, x.isSettle = false) (he : e.isSettle = true) :
    ((es.any InstanceEvent.isUnmount = true ∧
        stepInstance (runInstance (some (handleSendMessage s now).1) es)
          (InstanceEvent.event e) = none) ∨
      (es.any InstanceEvent.isUnmount = false ∧
        ∃ settled : State,
          stepInstance (runInstance (some (handleSendMessage s now).1) es)
          (InstanceEvent.event e) = some settled ∧
          settled.isTyping = false ∧
          ∃ reply : Message,
            reply.sender = Sender.assistant ∧
            ((∃ response t, e = Event.fulfilled response t ∧
                reply = { id := t + 1, text := response.response, sender := Sender.assistant,
                          timestamp := t, analysis := response.analysis,
                          processingTime := response.processing_time, isError := none }) ∨
              (∃ error t, e = Event.rejected error t ∧
                reply = { id := t + 1, text := errorMessage error, sender := Sender.assistant,
                          timestamp := t, analysis := none, processingTime := none,
                          isError := some true })) ∧
            ((es.any InstanceEvent.isClear = false ∧
                settled.messages =
                  s.messages ++
                    [{ id := now, text := s.inputMessage, sender := Sender.user,
                       timestamp := now, analysis := none, processingTime := none,
                       isError := none }, reply] ∧
                settled.messages.length = s.messages.length + 2) ∨
              (∃ t, InstanceEvent.event (Event.clearChat t) ∈ es ∧
                settled.messages = [clearedWelcome t, reply])))) := by
  rw [handleSendMessage_of_accept s now ht hy]
  rcases runInstance_while_pending es _ (rfl : ({ s with
      messages := s.messages ++
        [{ id := now, text := s.inputMessage, sender := Sender.user, timestamp := now,
           analysis := none, processingTime := none, isError := none }]
      inputMessage := ""
      isTyping := true
      error := none } : State).isTyping = true) hes with
    ⟨hu, hnone⟩ | ⟨hu, waiting, hw, htyping, hlog⟩
  · exact Or.inl ⟨hu, by rw [hnone]; rfl⟩
  · obtain ⟨hdone, reply, hsender, hkind, hmsgs⟩ := step_settle waiting e htyping he
    refine Or.inr ⟨hu, step waiting e, by rw [hw]; rfl, hdone, reply, hsender, hkind, ?_⟩
    rcases hlog with ⟨hc, hm⟩ | ⟨t, hmem, hm⟩
    · refine Or.inl ⟨hc, ?_, ?_⟩
      · rw [hmsgs, hm]; simp
      · rw [hmsgs, hm]; simp
    · exact Or.inr ⟨t, hmem, by rw [hmsgs, hm]; rfl⟩

/-- C5 witness: "hi" is sent on the initial log, the error banner is dismissed, the
request times out: the instance ends with `isTyping` unset and a log of 3 messages. -/
theorem send_settles_witness :
    ∃ settled : State,
      stepInstance
          (runInstance
            (some (handleSendMessage
              { initialState 0 with isConnected := true, inputMessage := "hi" } 10).1)
            [InstanceEvent.event Event.dismissError])
          (InstanceEvent.event
            (Event.rejected { response := none, code := some "ECONNABORTED" } 30)) =
        some settled ∧
      settled.isTyping = false ∧ settled.messages.length = 3 := by
  rcases send_settles { initialState 0 with isConnected := true, inputMessage := "hi" } 10
      [InstanceEvent.event Event.dismissError]
      (Event.rejected { response := none, code := some "ECONNABORTED" } 30)
      (by decide) rfl (by decide) rfl with
    ⟨hu, _⟩ | ⟨_, settled, hs, hty, reply, _, _, hlog⟩
  · exact absurd hu (by decide)
  · refine ⟨settled, hs, hty, ?_⟩
    rcases hlog with ⟨_, _, hlen⟩ | ⟨t, hmem, _⟩
    · exact hlen
    · simp at hmem

/-! ## C6: an accepted send -/

/-- C6: for every input whose trim is non-empty, with `isTyping = false` and
`isConnected = true`, `handleSendMessage` (called directly or through either control)
appends, before the request is issued, exactly one message at the end of the log, with
sender `user` and the raw input as text, keeps the earlier messages, sets `isTyping`
and clears the error banner; the request it leaves pending carries the raw input. -/
theorem send_accepted (s : State) (now : Nat)
    (ht : trim s.inputMessage ≠ "") (hy : s.isTyping = false) (hc : s.isConnected = true) :
    (handleSendMessage s now).1.messages =
      s.messages ++
        [{ id := now, text := s.inputMessage, sender := Sender.user, timestamp := now,
           analysis := none, processingTime := none, isError := none }] ∧
    (handleSendMessage s now).1.isTyping = true ∧
    (handleSendMessage s now).1.error = none ∧
    (handleSendMessage s now).2 = some s.inputMessage ∧
    clickSend s now = handleSendMessage s now ∧
    pressEnter s now = handleSendMessage s now := by
  rw [handleSendMessage_of_accept s now ht hy]
  refine ⟨rfl, rfl, rfl, rfl, ?_, ?_⟩
  · unfold clickSend sendButtonDisabled
    simp [ht, hy, hc, handleSendMessage_of_accept s now ht hy]
  · unfold pressEnter inputDisabled
    simp [hy, hc, handleSendMessage_of_accept s now ht hy]

/-- C6 witness: the input " hi " (white space at both ends) on a connected component
showing an error banner. -/
theorem send_accepted_witness :
    (handleSendMessage
        { initialState 0 with isConnected := true, inputMessage := " hi ",
                              error := some "banner" } 10).1.messages =
      ({ initialState 0 with isConnected := true, inputMessage := " hi ",
                             error := some "banner" } : State).messages ++
        [{ id := 10,
           text := ({ initialState 0 with isConnected := true, inputMessage := " hi ",
                                          error := some "banner" } : State).inputMessage,
           sender := Sender.user, timestamp := 10,
           analysis := none, processingTime := none, isError := none }] ∧
    (handleSendMessage
        { initialState 0 with isConnected := true, inputMessage := " hi ",
                              error := some "banner" } 10).1.isTyping = true ∧
    (handleSendMessage
        { initialState 0 with isConnected := true, inputMessage := " hi ",
                              error := some "banner" } 10).1.error = none ∧
    (handleSendMessage
        { initialState 0 with isConnected := true, inputMessage := " hi ",
                              error := some "banner" } 10).2 =
      some ({ initialState 0 with isConnected := true, inputMessage := " hi ",
                                  error := some "banner" } : State).inputMessage ∧
    clickSend { initialState 0 with isConnected := true, inputMessage := " hi ",
                                    error := some "banner" } 10 =
      handleSendMessage { initialState 0 with isConnected := true, inputMessage := " hi ",
                                              error := some "banner" } 10 ∧
    pressEnter { initialState 0 with isConnected := true, inputMessage := " hi ",
                                     error := some "banner" } 10 =
      handleSendMessage { initialState 0 with isConnected := true, inputMessage := " hi ",
                                              error := some "banner" } 10 :=
  send_accepted { initialState 0 with isConnected := true, inputMessage := " hi ",
                                      error := some "banner" } 10 (by decide) rfl rfl

/-! ## C7: clearing the chat -/

theorem clearedWelcome_text_ne_initialWelcome_text (t u : Nat) :
    (clearedWelcome t).text ≠ (initialWelcome u).text := by
  intro h
  have hlen := congrArg String.length h
  revert hlen
  simp [clearedWelcome, initialWelcome, String.length]

/-- C7 (as stated, refuted): the message that a clear leaves in the log does not carry
the welcome text that initialization seeds the log with; cleared at the very clock
reading of the mount, the log still differs from the initial log. -/
theorem clear_welcome_differs_from_initial :
    (handleClearChat (initialState 0) 0).messages ≠ (initialState 0).messages ∧
    ((handleClearChat (initialState 0) 0).messages.map Message.text ≠
      (initialState 0).messages.map Message.text) := by
  constructor
  · intro h
    have h2 : (clearedWelcome 0).text = (initialWelcome 0).text := by
      have h3 : [clearedWelcome 0] = [initialWelcome 0] := h
      rw [List.cons.inj h3 |>.1]
    exact clearedWelcome_text_ne_initialWelcome_text 0 0 h2
  · intro h
    have h3 : [(clearedWelcome 0).text] = [(initialWelcome 0).text] := h
    exact clearedWelcome_text_ne_initialWelcome_text 0 0 (List.cons.inj h3).1

/-- C7 (amended): for every prior log and any pending error banner, `handleClearChat`
results in a log of length exactly 1 whose single element is a welcome message with
sender `assistant`, the id 1 of the initial welcome message, no analysis, and the
shorter text of line 143; the error banner is null; the rest of the state is kept; and
neither outcome of the backend request changes that state. -/
theorem clear_resets_log (s : State) (now : Nat) (ok : Bool) :
    (handleClearChat s now).messages.length = 1 ∧
    (handleClearChat s now).messages = [clearedWelcome now] ∧
    (clearedWelcome now).sender = Sender.assistant ∧
    (clearedWelcome now).id = (initialWelcome now).id ∧
    (clearedWelcome now).analysis = none ∧
    (clearedWelcome now).text =
      "🚀 Hello! I'm Claude, your AI assistant. How can I help you today?" ∧
    (handleClearChat s now).error = none ∧
    handleClearChat s now = { s with messages := [clearedWelcome now], error := none } ∧
    clearConversationSettled (handleClearChat s now) ok = handleClearChat s now :=
  ⟨rfl, rfl, rfl, rfl, rfl, rfl, rfl, rfl, rfl⟩

end ChatInterface

namespace App

/-! ## C8: a failed health check -/

/-- C8 (as stated, refuted): in the chat component a successful connection and model
check followed by a retry whose two requests both fail ends with `isConnected = false`
but with all three `modelStatus` flags still true. -/
theorem modelStatus_survives_failed_check :
    (ChatInterface.run (ChatInterface.initialState 0)
      [ChatInterface.Event.connectionFulfilled,
       ChatInterface.Event.modelStatusFulfilled
         { spacy := true, transformers := true, nltk := true }]).isConnected = true ∧
    (ChatInterface.run (ChatInterface.initialState 0)
      [ChatInterface.Event.connectionFulfilled,
       ChatInterface.Event.modelStatusFulfilled
         { spacy := true, transformers := true, nltk := true },
       ChatInterface.Event.retryConnection,
       ChatInterface.Event.connectionRejected,
       ChatInterface.Event.modelStatusRejected]).isConnected = false ∧
    (ChatInterface.run (ChatInterface.initialState 0)
      [ChatInterface.Event.connectionFulfilled,
       ChatInterface.Event.modelStatusFulfilled
         { spacy := true, transformers := true, nltk := true },
       ChatInterface.Event.retryConnection,
       ChatInterface.Event.connectionRejected,
       ChatInterface.Event.modelStatusRejected]).modelStatus =
      { spacy := true, transformers := true, nltk := true } := by
  decide

/-- C8 (amended): for every state, a failed health check results in `isConnected = false`
in both components.  In `App` it also resets the health snapshot to null, so that none
of the three model indicators is shown as loaded.  In `ChatInterface` it leaves the three
`modelStatus` flags as they were: neither a failed connection check nor a failed model
status request writes them. -/
theorem failed_check_disconnects (a : State) (s : ChatInterface.State) :
    (checkBackendHealth_rejected a).isConnected = false ∧
    (checkBackendHealth_rejected a).backendHealth = none ∧
    modelIndicatorLoaded (checkBackendHealth_rejected a) ModelsLoaded.spacy = false ∧
    modelIndicatorLoaded (checkBackendHealth_rejected a) ModelsLoaded.transformers = false ∧
    modelIndicatorLoaded (checkBackendHealth_rejected a) ModelsLoaded.nltk = false ∧
    (ChatInterface.checkConnection_rejected s).isConnected = false ∧
    (ChatInterface.checkConnection_rejected s).modelStatus = s.modelStatus ∧
    ChatInterface.checkModelStatus_rejected s = s ∧
    (ChatInterface.retryConnectionFailed s).isConnected = false ∧
    (ChatInterface.retryConnectionFailed s).modelStatus = s.modelStatus :=
  ⟨rfl, rfl, rfl, rfl, rfl, rfl, rfl, rfl, rfl, rfl⟩

/-! ## C9: outstanding health requests -/

theorem run_clickRetry_replicate (n : Nat) (m : Monitor)
    (h : retryButtonRendered m.app = true) :
    (run m (List.replicate n Event.clickRetry)).outstanding = m.outstanding + n := by
  induction n generalizing m with
  | zero => rfl
  | succ n ih =>
      have hrun : run m (List.replicate (n + 1) Event.clickRetry) =
          run (step m Event.clickRetry) (List.replicate n Event.clickRetry) := rfl
      have hstep : step m Event.clickRetry = checkBackendHealth m := by
        simp [step, h]
      rw [hrun, hstep, ih (checkBackendHealth m) h]
      simp only [checkBackendHealth]
      omega

/-- C9 (as stated, refuted): after the first check has failed, two clicks on the retry
button, or one click followed by a timer tick, leave two health requests outstanding. -/
theorem two_health_requests_outstanding :
    (run mount [Event.rejected, Event.clickRetry]).outstanding = 1 ∧
    (run mount [Event.rejected, Event.clickRetry, Event.clickRetry]).outstanding = 2 ∧
    (run mount [Event.rejected, Event.clickRetry, Event.tick]).outstanding = 2 := by
  decide

/-- C9 (amended): `checkBackendHealth` has no in-flight guard.  In every state a timer
tick issues one more health request, and so does a click on the retry button whenever
the button is on screen, whatever the number of requests outstanding; after a failed
first check, `n` clicks on the retry button leave `n` requests outstanding. -/
theorem health_requests_unguarded (m : Monitor) (n : Nat) :
    (step m Event.tick).outstanding = m.outstanding + 1 ∧
    (step m Event.clickRetry).outstanding =
      (if retryButtonRendered m.app then m.outstanding + 1 else m.outstanding) ∧
    (run mount (Event.rejected :: List.replicate n Event.clickRetry)).outstanding = n := by
  refine ⟨rfl, ?_, ?_⟩
  · simp only [step]
    split <;> rfl
  · have hrun : run mount (Event.rejected :: List.replicate n Event.clickRetry) =
        run (step mount Event.rejected) (List.replicate n Event.clickRetry) := rfl
    rw [hrun, run_clickRetry_replicate n (step mount Event.rejected) (by decide)]
    have h0 : (step mount Event.rejected).outstanding = 0 := by decide
    omega

end App

namespace ChatInterface

/-! ## C10: message ids -/

theorem idsBounded_mono (s : State) (a b : Nat) (hab : a ≤ b) (h : idsBounded s a) :
    idsBounded s b :=
  ⟨h.1, fun i hi => Nat.le_trans (h.2 i hi) hab⟩

theorem idsBounded_of_messages_eq (s t : State) (b : Nat) (hm : t.messages = s.messages)
    (h : idsBounded s b) : idsBounded t b := by
  unfold idsBounded messageIds at *
  rw [hm]
  exact h

/-- Appending a message whose id lies above every id of the log keeps the ids distinct. -/
theorem idsBounded_append (s t : State) (m : Message) (a b : Nat)
    (h : idsBounded s a) (hm : t.messages = s.messages ++ [m])
    (hlo : a < m.id) (hhi : m.id ≤ b) : idsBounded t b := by
  unfold idsBounded messageIds at *
  rw [hm, List.map_append, List.map_singleton]
  constructor
  · rw [List.nodup_append]
    refine ⟨h.1, List.nodup_singleton _, ?_⟩
    intro i hi hi2
    rw [List.mem_singleton] at hi2
    have := h.2 i hi
    omega
  · intro i hi
    rw [List.mem_append, List.mem_singleton] at hi
    rcases hi with hi | hi
    · have := h.2 i hi
      omega
    · omega

theorem handleSendMessage_messages (s : State) (now : Nat) :
    (handleSendMessage s now).1.messages = s.messages ∨
    ∃ m : Message, m.id = now ∧ (handleSendMessage s now).1.messages = s.messages ++ [m] := by
  unfold handleSendMessage
  split
  · exact Or.inl rfl
  · exact Or.inr ⟨_, rfl, rfl⟩

/-- An event that reads the clock at `now`, at least 2 ms after the previous reading
`last`, keeps the invariant, with the bound moved to `now + 1`. -/
theorem step_idsBounded_clock (s : State) (e : Event) (last now : Nat)
    (h : idsBounded s (last + 1)) (hc : e.clock = some now) (hgap : last + 2 ≤ now) :
    idsBounded (step s e) (now + 1) := by
  have hkeep : idsBounded s (now + 1) := idsBounded_mono s _ _ (by omega) h
  have hsend : idsBounded (handleSendMessage s now).1 (now + 1) := by
    rcases handleSendMessage_messages s now with hm | ⟨m, hid, hm⟩
    · exact idsBounded_of_messages_eq s _ _ hm hkeep
    · exact idsBounded_append s _ m (last + 1) (now + 1) h hm (by omega) (by omega)
  cases e with
  | clickSend t =>
      simp only [Event.clock, Option.some.injEq] at hc
      subst hc
      simp only [step, clickSend]
      split
      · exact hkeep
      · exact hsend
  | pressEnter t =>
      simp only [Event.clock, Option.some.injEq] at hc
      subst hc
      simp only [step, pressEnter]
      split
      · exact hkeep
      · exact hsend
  | fulfilled response t =>
      simp only [Event.clock, Option.some.injEq] at hc
      subst hc
      simp only [step]
      split
      · exact idsBounded_append s _ _ (last + 1) (t + 1) h rfl
          (by show last + 1 < t + 1; omega) (Nat.le_refl _)
      · exact hkeep
  | rejected error t =>
      simp only [Event.clock, Option.some.injEq] at hc
      subst hc
      simp only [step]
      split
      · exact idsBounded_append s _ _ (last + 1) (t + 1) h rfl
          (by show last + 1 < t + 1; omega) (Nat.le_refl _)
      · exact hkeep
  | clearChat t =>
      simp only [step, handleClearChat, idsBounded, messageIds, clearedWelcome]
      simp
  | change value => simp [Event.clock] at hc
  | clearSettled ok => simp [Event.clock] at hc
  | dismissError => simp [Event.clock] at hc
  | retryConnection => simp [Event.clock] at hc
  | connectionFulfilled => simp [Event.clock] at hc
  | connectionRejected => simp [Event.clock] at hc
  | modelStatusFulfilled data => simp [Event.clock] at hc
  | modelStatusRejected => simp [Event.clock] at hc

/-- An event that does not read the clock does not touch the log. -/
theorem step_messages_of_no_clock (s : State) (e : Event) (hc : e.clock = none) :
    (step s e).messages = s.messages := by
  cases e with
  | change value =>
      simp only [step]
      split <;> rfl
  | clickSend t => simp [Event.clock] at hc
  | pressEnter t => simp [Event.clock] at hc
  | fulfilled response t => simp [Event.clock] at hc
  | rejected error t => simp [Event.clock] at hc
  | clearChat t => simp [Event.clock] at hc
  | clearSettled ok => rfl
  | dismissError => rfl
  | retryConnection => rfl
  | connectionFulfilled => rfl
  | connectionRejected => rfl
  | modelStatusFulfilled data => rfl
  | modelStatusRejected => rfl

theorem run_idsBounded (es : List Event) (s : State) (last : Nat)
    (h : idsBounded s (last + 1)) (hclock : clockSpaced 2 last es) :
    (messageIds (run s es)).Nodup := by
  induction es generalizing s last with
  | nil => exact h.1
  | cons e es ih =>
      have hrun : run s (e :: es) = run (step s e) es := rfl
      rw [hrun]
      cases hc : e.clock with
      | none =>
          simp only [clockSpaced, hc] at hclock
          exact ih (step s e) last
            (idsBounded_of_messages_eq s _ _ (step_messages_of_no_clock s e hc) h) hclock
      | some now =>
          simp only [clockSpaced, hc] at hclock
          exact ih (step s e) now (step_idsBounded_clock s e last now h hc hclock.1) hclock.2

/-- C10 (as stated, refuted): with strictly increasing clock readings, a send submitted
1 ms after the previous reply arrived gets the id of that reply (`Date.now() + 1`); and
a send at clock reading 1 gets the id 1 of the welcome message. -/
theorem ids_collide_under_increasing_clock :
    clockSpaced 1 1700000000000
      [Event.connectionFulfilled, Event.change "hi", Event.clickSend 1700000001000,
       Event.fulfilled { response := "hello", analysis := none, processing_time := none }
         1700000002000,
       Event.change "again", Event.clickSend 1700000002001] ∧
    messageIds (run (initialState 1700000000000)
      [Event.connectionFulfilled, Event.change "hi", Event.clickSend 1700000001000,
       Event.fulfilled { response := "hello", analysis := none, processing_time := none }
         1700000002000,
       Event.change "again", Event.clickSend 1700000002001]) =
      [1, 1700000001000, 1700000002001, 1700000002001] ∧
    ¬ (messageIds (run (initialState 1700000000000)
      [Event.connectionFulfilled, Event.change "hi", Event.clickSend 1700000001000,
       Event.fulfilled { response := "hello", analysis := none, processing_time := none }
         1700000002000,
       Event.change "again", Event.clickSend 1700000002001])).Nodup ∧
    clockSpaced 1 0 [Event.connectionFulfilled, Event.change "hi", Event.clickSend 1] ∧
    messageIds (run (initialState 0)
      [Event.connectionFulfilled, Event.change "hi", Event.clickSend 1]) = [1, 1] := by
  refine ⟨?_, ?_, ?_, ?_, ?_⟩
  · simp [clockSpaced, Event.clock]
  · decide
  · decide
  · simp [clockSpaced, Event.clock]
  · decide

/-- C10 (amended): for every run of the component from its initial state, under a clock
whose readings, starting with the reading of the mount, increase by at least 2 ms from
one clock-reading event (send, settlement, clear) to the next, the ids of the messages
in the log are pairwise distinct. -/
theorem ids_distinct_of_spaced_clock (t0 : Nat) (es : List Event)
    (h : clockSpaced 2 t0 es) :
    (messageIds (run (initialState t0) es)).Nodup := by
  apply run_idsBounded es (initialState t0) t0 _ h
  simp [idsBounded, messageIds, initialState, initialWelcome]

/-- C10 witness: two exchanges and a clear, each reading 2 ms or more after the last. -/
theorem ids_distinct_of_spaced_clock_witness :
    (messageIds (run (initialState 100)
      [Event.connectionFulfilled, Event.change "hi", Event.clickSend 102,
       Event.fulfilled { response := "hello", analysis := none, processing_time := none } 104,
       Event.change "again", Event.pressEnter 106,
       Event.rejected { response := none, code := none } 108,
       Event.clearChat 110, Event.change "x", Event.clickSend 112])).Nodup :=
  ids_distinct_of_spaced_clock 100
    [Event.connectionFulfilled, Event.change "hi", Event.clickSend 102,
     Event.fulfilled { response := "hello", analysis := none, processing_time := none } 104,
     Event.change "again", Event.pressEnter 106,
     Event.rejected { response := none, code := none } 108,
     Event.clearChat 110, Event.change "x", Event.clickSend 112]
    (by simp [clockSpaced, Event.clock])

end ChatInterface

namespace MessageBubble

open ChatInterface

/-! ## C11: entity and keyword chips -/

theorem take_min_length {α : Type} (k : Nat) (l : List α) :
    l.take (min k l.length) = l.take k := by
  rcases Nat.le_total k l.length with h | h
  · rw [Nat.min_eq_left h]
  · rw [Nat.min_eq_right h, List.take_length, List.take_of_length_le h]

theorem entityChip_textContent (entity : Entity) :
    (entityChip entity).textContent = entity.text ++ " (" ++ entity.label ++ ")" := by
  simp [entityChip, Span.textContent, String.join]

theorem keywordChip_textContent (keyword : Keyword) :
    (keywordChip keyword).textContent = keyword.word := by
  simp [keywordChip, Span.textContent, String.join]

theorem chipTexts_entitySection (entities : Option (List Entity)) :
    chipTexts (entitySection entities) =
      ((entities.getD []).take 3).map (fun e => e.text ++ " (" ++ e.label ++ ")") := by
  cases entities with
  | none => rfl
  | some es =>
      cases es with
      | nil => rfl
      | cons e rest =>
          simp only [entitySection, chipTexts, List.length_cons, Nat.succ_pos, gt_iff_lt,
            if_true, Option.getD_some, List.map_map]
          apply List.map_congr_left
          intro x _
          exact entityChip_textContent x

theorem chipTexts_keywordSection (keywords : Option (List Keyword)) :
    chipTexts (keywordSection keywords) = ((keywords.getD []).take 4).map Keyword.word := by
  cases keywords with
  | none => rfl
  | some ks =>
      cases ks with
      | nil => rfl
      | cons k rest =>
          simp only [keywordSection, chipTexts, List.length_cons, Nat.succ_pos, gt_iff_lt,
            if_true, Option.getD_some, List.map_map]
          apply List.map_congr_left
          intro x _
          exact keywordChip_textContent x

theorem entitySection_eq_none_iff (entities : Option (List Entity)) :
    entitySection entities = none ↔ entities.getD [] = [] := by
  cases entities with
  | none => simp [entitySection]
  | some es =>
      cases es with
      | nil => simp [entitySection]
      | cons e rest => simp [entitySection]

theorem keywordSection_eq_none_iff (keywords : Option (List Keyword)) :
    keywordSection keywords = none ↔ keywords.getD [] = [] := by
  cases keywords with
  | none => simp [keywordSection]
  | some ks =>
      cases ks with
      | nil => simp [keywordSection]
      | cons k rest => simp [keywordSection]

/-- C11: for every analysis shown with its details open, the entity chips rendered by
`renderAnalysis` are the first `min 3 n` of the `n` entities, in their order, each with
the text `{text} ({label})`; the keyword chips are the first `min 4 m` of the `m`
keywords, in their order; and the entity (keyword) section is left out exactly when the
entity (keyword) list is empty or missing. -/
theorem renderAnalysis_chips (message : Message) (analysis : Analysis) :
    ∃ block : AnalysisBlock,
      renderAnalysis { message with analysis := some analysis } true = some block ∧
      chipTexts block.entities =
        ((analysis.entities.getD []).take (min 3 (analysis.entities.getD []).length)).map
          (fun e => e.text ++ " (" ++ e.label ++ ")") ∧
      (chipTexts block.entities).length = min 3 (analysis.entities.getD []).length ∧
      (block.entities = none ↔ analysis.entities.getD [] = []) ∧
      chipTexts block.keywords =
        ((analysis.keywords.getD []).take (min 4 (analysis.keywords.getD []).length)).map
          Keyword.word ∧
      (chipTexts block.keywords).length = min 4 (analysis.keywords.getD []).length ∧
      (block.keywords = none ↔ analysis.keywords.getD [] = []) := by
  refine ⟨_, rfl, ?_, ?_, ?_, ?_, ?_, ?_⟩
  · rw [take_min_length]
    exact chipTexts_entitySection analysis.entities
  · show (chipTexts (entitySection analysis.entities)).length = _
    rw [chipTexts_entitySection, List.length_map, List.length_take]
  · exact entitySection_eq_none_iff analysis.entities
  · rw [take_min_length]
    exact chipTexts_keywordSection analysis.keywords
  · show (chipTexts (keywordSection analysis.keywords)).length = _
    rw [chipTexts_keywordSection, List.length_map, List.length_take]
  · exact keywordSection_eq_none_iff analysis.keywords

end MessageBubble

namespace MessageBubble

open ChatInterface

/-! ## C12: the sentiment line -/

theorem mathRound_eq_floor (x : Rat) : mathRound x = ⌊x + 1 / 2⌋ := rfl

theorem mathRound_zero_percent : mathRound (0 * 100) = 0 := by
  rw [mathRound_eq_floor, Int.floor_eq_iff]
  norm_num

theorem mathRound_half_percent : mathRound (1 / 2 * 100) = 50 := by
  rw [mathRound_eq_floor, Int.floor_eq_iff]
  norm_num

theorem sentimentLine_texts (sentiment : Sentiment) :
    (sentimentLine sentiment).map Child.textContent =
      [getSentimentEmoji sentiment.sentiment, "Sentiment:", sentiment.sentiment] ++
        (sentimentConfidence sentiment.confidence).map Child.textContent := by
  simp [sentimentLine, Child.textContent, Span.textContent, String.join]

/-- C12 (the code at the failing input): a sentiment with confidence 0, details open.
The sentiment line ends with the bare text "0" instead of the percent figure "(0%)";
with confidence 1/2 it ends with "(50%)", and with no confidence it ends with the label. -/
theorem sentiment_confidence_zero_renders_bare_zero :
    (((renderAnalysis
        { id := 6, text := "ok", sender := Sender.assistant, timestamp := 5,
          analysis := some
            { intent := none,
              sentiment := some { sentiment := "neutral", confidence := some 0 },
              entities := none, keywords := none, text_stats := none },
          processingTime := none, isError := none } true).bind
        AnalysisBlock.sentiment).map (List.map Child.textContent) =
      some ["😐", "Sentiment:", "neutral", "0"]) ∧
    (sentimentLine { sentiment := "neutral", confidence := some 0 }).map Child.textContent =
      ["😐", "Sentiment:", "neutral", "0"] ∧
    (percentSpan 0).textContent = "(0%)" ∧
    (sentimentLine { sentiment := "neutral", confidence := some (1 / 2) }).map
        Child.textContent = ["😐", "Sentiment:", "neutral", "(50%)"] ∧
    (sentimentLine { sentiment := "neutral", confidence := none }).map Child.textContent =
      ["😐", "Sentiment:", "neutral"] := by
  have hzero : (sentimentLine { sentiment := "neutral", confidence := some 0 }).map
      Child.textContent = ["😐", "Sentiment:", "neutral", "0"] := by
    rw [sentimentLine_texts]
    simp [sentimentConfidence, getSentimentEmoji, Child.textContent]
  have hpercent : (percentSpan 0).textContent = "(0%)" := by
    have h0 : mathRound (0 * 100) = 0 := mathRound_zero_percent
    simp only [percentSpan, Span.textContent, h0]
    decide
  have hhalf : (percentSpan (1 / 2)).textContent = "(50%)" := by
    have h50 : mathRound (1 / 2 * 100) = 50 := mathRound_half_percent
    simp only [percentSpan, Span.textContent, h50]
    decide
  refine ⟨?_, hzero, hpercent, ?_, ?_⟩
  · simp only [renderAnalysis, Bool.not_true, Bool.false_eq_true, if_false, Option.map_some',
      Option.map_none', Option.some_bind, hzero]
  · have hc : sentimentConfidence (some (1 / 2)) = [Child.span (percentSpan (1 / 2))] := by
      unfold sentimentConfidence
      exact if_neg (by norm_num)
    rw [sentimentLine_texts]
    simp only [hc, List.map_cons, List.map_nil, Child.textContent, hhalf]
    rfl
  · rw [sentimentLine_texts]
    simp [sentimentConfidence, getSentimentEmoji]

end MessageBubble

namespace ChatInterface

/-! ## C13: the shape of the messages of the log -/

/-- A property that holds of the messages of the log and of every message a handler can
create holds of the messages of the log after one more event. -/
theorem step_messages_forall (P : Message → Prop) (s : State) (e : Event)
    (h : ∀ m ∈ s.messages, P m)
    (hwelcome : ∀ now, P (clearedWelcome now))
    (huser : ∀ text now, P { id := now, text := text, sender := Sender.user, timestamp := now,
                             analysis := none, processingTime := none, isError := none })
    (hreply : ∀ (response : ChatResponse) now,
      P { id := now + 1, text := response.response, sender := Sender.assistant,
          timestamp := now, analysis := response.analysis,
          processingTime := response.processing_time, isError := none })
    (herror : ∀ error now,
      P { id := now + 1, text := errorMessage error, sender := Sender.assistant,
          timestamp := now, analysis := none, processingTime := none,
          isError := some true }) :
    ∀ m ∈ (step s e).messages, P m := by
  have hsend : ∀ now, ∀ m ∈ (handleSendMessage s now).1.messages, P m := by
    intro now m hm
    unfold handleSendMessage at hm
    split at hm
    · exact h m hm
    · simp only [List.mem_append, List.mem_singleton] at hm
      rcases hm with hm | hm
      · exact h m hm
      · rw [hm]; exact huser _ _
  intro m hm
  cases e with
  | change value =>
      simp only [step] at hm
      split at hm <;> exact h m hm
  | clickSend now =>
      simp only [step, clickSend] at hm
      split at hm
      · exact h m hm
      · exact hsend now m hm
  | pressEnter now =>
      simp only [step, pressEnter] at hm
      split at hm
      · exact h m hm
      · exact hsend now m hm
  | fulfilled response now =>
      simp only [step] at hm
      split at hm
      · simp only [handleSendMessage_fulfilled, List.mem_append, List.mem_singleton] at hm
        rcases hm with hm | hm
        · exact h m hm
        · rw [hm]; exact hreply response now
      · exact h m hm
  | rejected error now =>
      simp only [step] at hm
      split at hm
      · simp only [handleSendMessage_rejected, List.mem_append, List.mem_singleton] at hm
        rcases hm with hm | hm
        · exact h m hm
        · rw [hm]; exact herror error now
      · exact h m hm
  | clearChat now =>
      simp only [step, handleClearChat, List.mem_singleton] at hm
      rw [hm]; exact hwelcome now
  | clearSettled ok => exact h m hm
  | dismissError => exact h m hm
  | retryConnection => exact h m hm
  | connectionFulfilled => exact h m hm
  | connectionRejected => exact h m hm
  | modelStatusFulfilled data => exact h m hm
  | modelStatusRejected => exact h m hm

theorem run_messages_forall (P : Message → Prop) (es : List Event) (s : State)
    (h : ∀ m ∈ s.messages, P m)
    (hwelcome : ∀ now, P (clearedWelcome now))
    (huser : ∀ text now, P { id := now, text := text, sender := Sender.user, timestamp := now,
                             analysis := none, processingTime := none, isError := none })
    (hreply : ∀ (response : ChatResponse) now,
      P { id := now + 1, text := response.response, sender := Sender.assistant,
          timestamp := now, analysis := response.analysis,
          processingTime := response.processing_time, isError := none })
    (herror : ∀ error now,
      P { id := now + 1, text := errorMessage error, sender := Sender.assistant,
          timestamp := now, analysis := none, processingTime := none,
          isError := some true }) :
    ∀ m ∈ (run s es).messages, P m := by
  induction es generalizing s with
  | nil => exact h
  | cons e es ih =>
      exact ih (step s e) (step_messages_forall P s e h hwelcome huser hreply herror)

/-- C13: in every log reachable from the initial state by any sequence of events (sends
that succeed or fail, clears and all others), every message whose sender is `user` has
no analysis, no processingTime and an isError that is not true, and every message whose
isError is true has the sender `assistant` and no analysis. -/
theorem log_messages_well_formed (t0 : Nat) (es : List Event) (m : Message)
    (hm : m ∈ (run (initialState t0) es).messages) :
    (m.sender = Sender.user →
      m.analysis = none ∧ m.processingTime = none ∧ m.isError ≠ some true) ∧
    (m.isError = some true → m.sender = Sender.assistant ∧ m.analysis = none) := by
  refine run_messages_forall
    (fun m => (m.sender = Sender.user →
        m.analysis = none ∧ m.processingTime = none ∧ m.isError ≠ some true) ∧
      (m.isError = some true → m.sender = Sender.assistant ∧ m.analysis = none))
    es (initialState t0) ?_ ?_ ?_ ?_ ?_ m hm
  · intro x hx
    simp only [initialState, List.mem_singleton] at hx
    rw [hx]
    simp [initialWelcome]
  · intro now
    simp [clearedWelcome]
  · intro text now
    simp
  · intro response now
    simp
  · intro error now
    simp

/-- C13 witness: the synthesized error message of a failed send. -/
theorem log_messages_well_formed_witness :
    (({ id := 21, text := errorMessage { response := none, code := none },
        sender := Sender.assistant, timestamp := 20, analysis := none,
        processingTime := none, isError := some true } : Message).sender = Sender.user →
      ({ id := 21, text := errorMessage { response := none, code := none },
         sender := Sender.assistant, timestamp := 20, analysis := none,
         processingTime := none, isError := some true } : Message).analysis = none ∧
      ({ id := 21, text := errorMessage { response := none, code := none },
         sender := Sender.assistant, timestamp := 20, analysis := none,
         processingTime := none, isError := some true } : Message).processingTime = none ∧
      ({ id := 21, text := errorMessage { response := none, code := none },
         sender := Sender.assistant, timestamp := 20, analysis := none,
         processingTime := none, isError := some true } : Message).isError ≠ some true) ∧
    (({ id := 21, text := errorMessage { response := none, code := none },
        sender := Sender.assistant, timestamp := 20, analysis := none,
        processingTime := none, isError := some true } : Message).isError = some true →
      ({ id := 21, text := errorMessage { response := none, code := none },
         sender := Sender.assistant, timestamp := 20, analysis := none,
         processingTime := none, isError := some true } : Message).sender = Sender.assistant ∧
      ({ id := 21, text := errorMessage { response := none, code := none },
         sender := Sender.assistant, timestamp := 20, analysis := none,
         processingTime := none, isError := some true } : Message).analysis = none) :=
  log_messages_well_formed 0
    [Event.connectionFulfilled, Event.change "hi", Event.clickSend 10,
     Event.rejected { response := none, code := none } 20]
    { id := 21, text := errorMessage { response := none, code := none },
      sender := Sender.assistant, timestamp := 20, analysis := none,
      processingTime := none, isError := some true }
    (List.mem_cons_of_mem _ (List.mem_cons_of_mem _ (List.mem_cons_self _ _)))

end ChatInterface
